import Mathlib

/-!
Verification of the NetLab interactive-TUI core: the screen state machine,
the dependency verifier (`internal/utils/diagnostics.go`) and the external
process orchestrator of the OSI module (`modules/01-osi-model/module.go`).

The Go code is embedded shallowly:
* the external world (file system, child processes, operating system) is an
  explicit parameter of each function that consulted it in Go;
* Go `float64` progress values are modelled as `Nat` — every value the code
  produces is one of 0, 5, 15, …, 100, all exactly representable, and the
  only operation performed on them is the order comparison `>`;
* a bubbletea `tea.Cmd` produces exactly one message; a command's emitted
  event sequence is therefore the one-element list of that message.
-/

namespace NetLab

/-- `leadsWith sub l`: the character list `sub` is an initial segment of `l`. -/
def leadsWith : List Char → List Char → Bool
  | [], _ => true
  | _ :: _, [] => false
  | a :: as, b :: bs => (a == b) && leadsWith as bs

/-- `occursIn sub l`: `sub` occurs contiguously somewhere inside `l`. -/
def occursIn (sub : List Char) : List Char → Bool
  | [] => sub.isEmpty
  | c :: tl => leadsWith sub (c :: tl) || occursIn sub tl

/-- Go `strings.Contains s sub`: `sub` occurs as a contiguous substring of `s`. -/
def strContains (s sub : String) : Bool :=
  occursIn sub.data s.data

/-- Go `strings.ToLower` (on ASCII letters, the only case the code's
substring tables exercise, `Char.toLower` agrees with Go). -/
def goToLower (s : String) : String :=
  String.mk (s.data.map Char.toLower)

/-- The whitespace characters Go's `unicode.IsSpace` recognises that can occur
in the code's process output (ASCII whitespace). -/
def isSpaceChar (c : Char) : Bool :=
  c == ' ' || c == '\t' || c == '\n' || c == '\r'

/-- Drop the longest run of characters satisfying `p` from the front. -/
def dropWhileChar (p : Char → Bool) : List Char → List Char
  | [] => []
  | c :: tl => if p c then dropWhileChar p tl else c :: tl

/-- Go `strings.TrimSpace`: leading and trailing whitespace removed. -/
def goTrimSpace (s : String) : String :=
  String.mk ((dropWhileChar isSpaceChar
    (dropWhileChar isSpaceChar s.data).reverse).reverse)

/-- Go `strings.Split s "\n"`: split at every newline, keeping empty fields. -/
def splitLinesAux (acc : List Char) : List Char → List String
  | [] => [String.mk acc.reverse]
  | c :: tl =>
    if c == '\n' then String.mk acc.reverse :: splitLinesAux [] tl
    else splitLinesAux (c :: acc) tl

/-- Go `strings.Split s "\n")` as used on captured process output. -/
def splitLines (s : String) : List String :=
  splitLinesAux [] s.data

/-- `parseProgressFromOutput` from `modules/01-osi-model/module.go`: maps one
streamed output line to a heuristic progress percentage; `0` when no table
entry matches. -/
def parseProgressFromOutput (line : String) : Nat :=
  let lower := goToLower line
  if strContains lower "checking prerequisites" || strContains lower "checking docker" then 5
  else if strContains lower "creating kind cluster" then 15
  else if strContains lower "kind cluster" && strContains lower "created successfully" then 30
  else if strContains lower "deploying nginx" then 40
  else if strContains lower "nginx deployed successfully" then 55
  else if strContains lower "deploying busybox" then 65
  else if strContains lower "busybox pod deployed successfully" then 75
  else if strContains lower "setting up packet capture" || strContains lower "installing tcpdump" then 80
  else if strContains lower "starting packet capture" then 85
  else if strContains lower "making http request" then 90
  else if strContains lower "copying packet capture" || strContains lower "packet capture saved" then 95
  else if strContains lower "lab setup completed" || (strContains lower "success" && strContains lower "capture") then 100
  else 0

/-- `PacketLayer` from `modules/01-osi-model/module.go`: one parsed layer of a
captured packet.  Go's `Headers map[string]string` is kept in source order as
an association list (no claim depends on map iteration order). -/
structure PacketLayer where
  OSILayer : Nat
  Name : String
  Headers : List (String × String)
  RawData : String
  Explanation : String
deriving DecidableEq

/-- `getSamplePacketLayers` from `modules/01-osi-model/module.go`: the fixed
sample packet data shown in the walkthrough. -/
def getSamplePacketLayers : List PacketLayer :=
  [ { OSILayer := 1
    , Name := "Physical Layer"
    , Headers :=
        [ ("Medium", "Ethernet over copper wire")
        , ("Encoding", "Manchester encoding")
        , ("Signal Level", "-2.5V to +2.5V")
        , ("Bit Rate", "1000 Mbps") ]
    , RawData := "10101010 10101010 10101010 10101010 10111011 ..."
    , Explanation := "At the physical layer, data is transmitted as electrical signals over the network cable. This represents the raw bits being sent as voltage levels on the wire." }
  , { OSILayer := 2
    , Name := "Data Link Layer (Ethernet)"
    , Headers :=
        [ ("Destination MAC", "02:42:ac:12:00:02")
        , ("Source MAC", "02:42:ac:12:00:01")
        , ("EtherType", "0x0800 (IPv4)")
        , ("Frame Length", "74 bytes")
        , ("FCS", "0x12345678") ]
    , RawData := "02:42:ac:12:00:02 02:42:ac:12:00:01 08:00 45:00..."
    , Explanation := "The Ethernet frame wraps the IP packet with MAC addresses for local network delivery. The source MAC is the sending container's interface, and the destination MAC is the nginx container's interface." }
  , { OSILayer := 3
    , Name := "Network Layer (IP)"
    , Headers :=
        [ ("Version", "4 (IPv4)")
        , ("Header Length", "20 bytes")
        , ("Source IP", "10.244.0.5")
        , ("Destination IP", "10.244.0.10")
        , ("Protocol", "6 (TCP)")
        , ("TTL", "64")
        , ("Packet Length", "60 bytes") ]
    , RawData := "45:00:00:3c:00:00:40:00:40:06:b7:c8:0a:f4:00:05:0a:f4:00:0a"
    , Explanation := "The IP header contains routing information to deliver the packet from the busybox Pod IP to the nginx Pod IP within the Kubernetes cluster network." }
  , { OSILayer := 4
    , Name := "Transport Layer (TCP)"
    , Headers :=
        [ ("Source Port", "38472")
        , ("Destination Port", "80")
        , ("Sequence Number", "1234567890")
        , ("Ack Number", "0")
        , ("Flags", "SYN")
        , ("Window Size", "65535")
        , ("Checksum", "0x1234") ]
    , RawData := "96:38:00:50:49:96:02:d2:00:00:00:00:a0:02:ff:ff:12:34:00:00"
    , Explanation := "The TCP header establishes a reliable connection to nginx on port 80. This is the SYN packet that starts the TCP three-way handshake for the HTTP connection." }
  , { OSILayer := 7
    , Name := "Application Layer (HTTP)"
    , Headers :=
        [ ("Method", "GET")
        , ("URI", "/")
        , ("HTTP Version", "1.1")
        , ("Host", "nginx")
        , ("User-Agent", "curl/7.64.0")
        , ("Accept", "*/*")
        , ("Connection", "keep-alive") ]
    , RawData := "GET / HTTP/1.1\\r\\nHost: nginx\\r\\nUser-Agent: curl/7.64.0\\r\\nAccept: */*\\r\\n\\r\\n"
    , Explanation := "The HTTP GET request from the busybox Pod to fetch the nginx welcome page. This is the application-layer data that users actually care about - a web request." } ]

/-- `LoadPacketData` from `modules/01-osi-model/module.go`.  The file system is
the explicit parameter `pcapExists` (whether
`modules/01-osi-model/assets/https-nginx.pcap` exists).  Both branches of the
Go function return the sample data with a nil error (parsing the real capture
is an unimplemented TODO in the source). -/
def LoadPacketData (pcapExists : Bool) : Except String (List PacketLayer) :=
  if !pcapExists then
    Except.ok getSamplePacketLayers
  else
    Except.ok getSamplePacketLayers

/-- The fields of `WalkthroughModel` (`modules/01-osi-model/module.go`) that
carry the workflow-run and screen state.  The two `viewport.Model` sub-widgets
are pure render caches (their content is recomputed from these fields) and are
not part of the state modelled here. -/
structure WalkthroughState where
  layers : List PacketLayer
  currentIdx : Nat
  ready : Bool
  width : Nat
  height : Nat
  labReady : Bool
  labRunning : Bool
  labError : String
  labProgress : Nat
  labOutput : List String
  showLabSetup : Bool
deriving DecidableEq

/-- `labOutputMsg` from `modules/01-osi-model/module.go`: one asynchronous
output event delivered from the process task to the UI loop. -/
structure LabOutputEvent where
  output : String
  progress : Nat
  finished : Bool
  errMsg : String
  success : Bool
deriving DecidableEq

/-- The `tea.Cmd` returned by `WalkthroughModel.Update` on a key press:
which asynchronous action, if any, the key starts.  `.pass` covers both
`nil` commands and the plain viewport forwarding at the bottom of `Update`
(neither launches a process or touches the workflow state). -/
inductive LabCmd where
  | pass
  | quit
  | runLabSetup
  | runLabCleanup
  | exportLogs
deriving DecidableEq

/-- The `tea.KeyMsg` arm of `WalkthroughModel.Update`
(`modules/01-osi-model/module.go`): how one key press transforms the
walkthrough state and which command it returns.  In Go the `"r"` case falls
through to the viewport update when `labRunning` is set; the lab state is
unchanged on that path, here `(m, .pass)`. -/
def updateKey (m : WalkthroughState) (key : String) : WalkthroughState × LabCmd :=
  if key == "ctrl+c" || key == "q" || key == "esc" then
    (m, LabCmd.quit)
  else if key == "n" || key == "right" || key == "space" then
    (if m.currentIdx < m.layers.length - 1 then
       { m with currentIdx := m.currentIdx + 1 }
     else m, LabCmd.pass)
  else if key == "p" || key == "left" || key == "backspace" then
    (if m.currentIdx > 0 then
       { m with currentIdx := m.currentIdx - 1 }
     else m, LabCmd.pass)
  else if key == "r" then
    if !m.labRunning then
      ({ m with labRunning := true, labError := "", showLabSetup := true,
                labProgress := 0, labOutput := [], labReady := false },
       LabCmd.runLabSetup)
    else (m, LabCmd.pass)
  else if key == "c" then
    if !m.labRunning then
      ({ m with labRunning := true, labError := "", showLabSetup := true,
                labProgress := 0, labOutput := [] },
       LabCmd.runLabCleanup)
    else (m, LabCmd.pass)
  else if key == "e" then
    (if m.labOutput.length > 0 then (m, LabCmd.exportLogs) else (m, LabCmd.pass))
  else
    (m, LabCmd.pass)

/-- The loop body of the non-finished `labOutputMsg` arm of
`WalkthroughModel.Update`: a line is appended to the output log when its
trimmed form is non-empty, and the progress estimate replaces the current one
only when strictly greater. -/
def labLineStep (s : WalkthroughState) (line : String) : WalkthroughState :=
  if goTrimSpace line != "" then
    { s with labOutput := s.labOutput ++ [line],
             labProgress :=
               if parseProgressFromOutput line > s.labProgress then
                 parseProgressFromOutput line
               else s.labProgress }
  else s

/-- The loop body of the finished-with-failure `labOutputMsg` arm of
`WalkthroughModel.Update`: each non-blank line of the terminal message's
output is appended to the output log. -/
def labFailLineStep (s : WalkthroughState) (line : String) : WalkthroughState :=
  if goTrimSpace line != "" then { s with labOutput := s.labOutput ++ [line] }
  else s

/-- The `labOutputMsg` arm of `WalkthroughModel.Update`
(`modules/01-osi-model/module.go`).  `pcapExists` is the file-system input of
the `LoadPacketData` call made on the success path. -/
def updateLabOutput (pcapExists : Bool) (m : WalkthroughState)
    (msg : LabOutputEvent) : WalkthroughState :=
  if msg.finished then
    if msg.success then
      let m := { m with labRunning := false, labReady := true, labError := "",
                        labProgress := 100,
                        labOutput := m.labOutput ++ ["✅ Lab setup completed successfully!"],
                        showLabSetup := false }
      match LoadPacketData pcapExists with
      | Except.ok layers => { m with layers := layers }
      | Except.error _ => m
    else
      let m := { m with labRunning := false, labError := msg.errMsg, labProgress := 0 }
      (splitLines msg.output).foldl labFailLineStep m
  else
    (splitLines msg.output).foldl labLineStep m

/-- The spec's `WorkflowRun.phase` (§3 of the specification). -/
inductive Phase where
  | notStarted
  | streaming
  | succeeded
  | failed
deriving DecidableEq

/-- Refinement mapping from the walkthrough state to the spec's
`WorkflowRun.phase`: a run is Streaming while `labRunning` is set, Failed when
an error is recorded, Succeeded once the lab is ready, and NotStarted before
any run. -/
def runPhase (m : WalkthroughState) : Phase :=
  if m.labRunning then Phase.streaming
  else if m.labError != "" then Phase.failed
  else if m.labReady then Phase.succeeded
  else Phase.notStarted

/-- `parseLabError` from `modules/01-osi-model/module.go`: classifies the
captured combined output (and the Go error string `errMsg`) of a failed setup
run into a user-facing message and a troubleshooting text; ordered substring
checks, first match wins. -/
def parseLabError (output : String) (errMsg : String) : String × String :=
  let lower := goToLower output
  if strContains lower "docker" && (strContains lower "not found" || strContains lower "command not found") then
    ("🐳 Docker is not installed",
     "Please install Docker:\n• macOS: Download Docker Desktop from docker.com\n• Linux: Run 'curl -fsSL https://get.docker.com | sh'\n• Then restart your terminal")
  else if strContains lower "docker" && (strContains lower "permission denied" || strContains lower "cannot connect") then
    ("🐳 Docker connection issue",
     "The lab script will attempt to start Docker automatically.\nIf this fails:\n• Start Docker Desktop manually (macOS)\n• Run 'sudo systemctl start docker' (Linux)\n• Add your user to docker group: 'sudo usermod -aG docker $USER'")
  else if strContains lower "docker is not running" && strContains lower "attempting to start" then
    ("🐳 Starting Docker",
     "Docker is being started automatically.\nThis may take 30-60 seconds on first startup.\nIf startup fails, please start Docker manually and try again.")
  else if strContains lower "waiting for docker" then
    ("🐳 Docker is starting",
     "Please wait while Docker starts up.\nThis is normal and may take up to 60 seconds.\nDocker Desktop needs time to initialize all components.")
  else if strContains lower "docker failed to start" then
    ("🐳 Docker startup failed",
     "Docker could not be started automatically.\nPlease:\n• Start Docker Desktop manually (macOS)\n• Run 'sudo systemctl start docker' (Linux)\n• Wait for Docker to be fully ready\n• Then try the lab again")
  else if strContains lower "kind" && strContains lower "not found" then
    ("☸️  kind is not installed",
     "Please install kind:\n• macOS: 'brew install kind'\n• Linux: 'curl -Lo ./kind https://kind.sigs.k8s.io/dl/v0.20.0/kind-linux-amd64'\n• Then: 'chmod +x ./kind && sudo mv ./kind /usr/local/bin/kind'")
  else if strContains lower "kubectl" && strContains lower "not found" then
    ("☸️  kubectl is not installed",
     "Please install kubectl:\n• macOS: 'brew install kubectl'\n• Linux: Follow instructions at kubernetes.io/docs/tasks/tools/install-kubectl-linux/")
  else if strContains lower "tcpdump" && strContains lower "not found" then
    ("📡 tcpdump is not installed",
     "Please install tcpdump:\n• macOS: 'brew install tcpdump'\n• Linux: 'sudo apt-get install tcpdump' or 'sudo yum install tcpdump'")
  else if strContains lower "tshark" && strContains lower "not found" then
    ("📡 tshark is not installed",
     "Please install Wireshark (includes tshark):\n• macOS: 'brew install wireshark'\n• Linux: 'sudo apt-get install tshark' or 'sudo yum install wireshark'")
  else if strContains lower "creating cluster" && strContains lower "failed" then
    ("☸️  Failed to create kind cluster",
     "This usually means:\n• Docker is not running properly\n• Insufficient system resources\n• Port conflicts\n\nTry:\n• Restart Docker\n• Free up disk space\n• Run 'kind delete cluster --name netlab-osi' to clean up")
  else if strContains lower "network" && (strContains lower "unreachable" || strContains lower "timeout") then
    ("🌐 Network connectivity issue",
     "This usually means:\n• No internet connection for downloading images\n• Corporate firewall blocking Docker registry\n• DNS resolution issues\n\nTry:\n• Check internet connectivity\n• Configure Docker to use corporate proxy if needed")
  else if strContains lower "permission denied" && !strContains lower "docker" then
    ("🔒 Permission denied",
     "This usually means:\n• Script file is not executable\n• Insufficient privileges\n\nTry:\n• Run 'chmod +x ./scripts/k8s_lab.sh'\n• Check if you need sudo for certain operations")
  else if strContains lower "no space left" || strContains lower "disk full" then
    ("💾 Insufficient disk space",
     "Please:\n• Free up disk space (at least 2GB recommended)\n• Clean up Docker: 'docker system prune -a'\n• Remove unused kind clusters: 'kind get clusters' then 'kind delete cluster --name <cluster>'")
  else if strContains output "exit status" || strContains errMsg "exit status" then
    ("❌ Lab setup script failed",
     "The setup script encountered an error. Common solutions:\n• Run 'netlab doctor' to check all dependencies\n• Try running './scripts/k8s_lab.sh setup' manually for detailed output\n• Make sure Docker is running and you have sufficient resources\n• Check the raw output below for specific error details")
  else
    ("❌ Lab setup failed: " ++ errMsg,
     "Try:\n• Run 'netlab doctor' to check dependencies\n• Run './scripts/k8s_lab.sh setup' manually for more details\n• Check the raw output below for error specifics")

/-- The external-world inputs of one `streamLabOutput` / `streamLabCleanup`
invocation: whether `./scripts/k8s_lab.sh` exists, the child's captured
combined output, the Go error of `cmd.CombinedOutput()` (its `Error()` string;
`none` for exit status 0), and whether
`modules/01-osi-model/assets/https-nginx.pcap` exists after the run. -/
structure LabRunWorld where
  scriptExists : Bool
  output : String
  exitErr : Option String
  pcapExists : Bool
deriving DecidableEq

/-- The literal message built by `streamLabOutput` when the entry point is
absent. -/
def setupScriptNotFoundOutput : String :=
  "📁 Lab script not found\n\nThe setup script './scripts/k8s_lab.sh' was not found.\n\nThis usually means:\n• You're not running from the NetLab project root directory\n• The script file is missing or moved\n\nTroubleshooting:\n• Make sure you're in the k8s-network-learning directory\n• Check if the file exists: 'ls -la scripts/'\n• If missing, clone the repository again or check if it was accidentally deleted"

/-- The literal message built by `streamLabCleanup` when the entry point is
absent. -/
def cleanupScriptNotFoundOutput : String :=
  "📁 Lab script not found\n\nThe cleanup script './scripts/k8s_lab.sh' was not found.\n\nThis usually means:\n• You're not running from the NetLab project root directory\n• The script file is missing or moved\n\nTroubleshooting:\n• Make sure you're in the k8s-network-learning directory\n• You can manually run: 'kind delete cluster --name netlab-osi'"

/-- `streamLabOutput` from `modules/01-osi-model/module.go`: the setup-mode
run.  Returns the single message the command delivers and whether a child
process was spawned. -/
def streamLabOutput (w : LabRunWorld) : LabOutputEvent × Bool :=
  if !w.scriptExists then
    ({ output := setupScriptNotFoundOutput
     , progress := 0
     , finished := true
     , errMsg := "📁 Lab script not found in expected location"
     , success := false }, false)
  else
    match w.exitErr with
    | some e =>
      let ue := parseLabError w.output e
      ({ output := ue.1 ++ "\n\n" ++ ue.2 ++ "\n\nRaw output:\n" ++ w.output
       , progress := 0
       , finished := true
       , errMsg := ue.1
       , success := false }, true)
    | none =>
      ({ output := w.output
       , progress := 100
       , finished := true
       , errMsg := ""
       , success := w.pcapExists }, true)

/-- `streamLabCleanup` from `modules/01-osi-model/module.go`: the cleanup-mode
run (the `pcapExists` field of the world is unused here). -/
def streamLabCleanup (w : LabRunWorld) : LabOutputEvent × Bool :=
  if !w.scriptExists then
    ({ output := cleanupScriptNotFoundOutput
     , progress := 0
     , finished := true
     , errMsg := "📁 Lab script not found in expected location"
     , success := false }, false)
  else
    match w.exitErr with
    | some _ =>
      ({ output := "⚠️ Cleanup completed with warnings:\n\n" ++ w.output
       , progress := 100
       , finished := true
       , errMsg := ""
       , success := true }, true)
    | none =>
      ({ output := w.output
       , progress := 100
       , finished := true
       , errMsg := ""
       , success := true }, true)

/-- The sequence of `OutputEvent`s a setup-mode run delivers to the UI loop: a
bubbletea `tea.Cmd` produces exactly one message, so the sequence is the
one-element list of `streamLabOutput`'s message. -/
def setupRunEvents (w : LabRunWorld) : List LabOutputEvent :=
  [(streamLabOutput w).1]

/-- The non-empty lines of a captured output, as the spec's claim C1 counts
them (a line counts when its trimmed form is non-empty, mirroring the
`strings.TrimSpace(line) != ""` filter of the UI loop). -/
def nonEmptyLines (output : String) : List String :=
  (splitLines output).filter (fun line => goTrimSpace line != "")

/-- The outcome of invoking an external command (`exec.Command(...).Output()`
in Go): captured stdout on success, or the Go error's `Error()` string on any
invocation failure. -/
inductive ExecResult where
  | success (stdout : String)
  | failure (errMsg : String)
deriving DecidableEq

/-- The external command runner: what `(*exec.Cmd).Output()` returns for a
given command name and argument list. -/
def ExecWorld : Type := String → List String → ExecResult

/-- `checkCommand` from `internal/utils/diagnostics.go`: probes one tool,
classifying the result as `"ok"` (with the captured stdout verbatim),
`"missing"` (the spawn error carries an executable-not-located signature) or
`"error"` (any other failure, with the error text). -/
def checkCommand (world : ExecWorld) (command : String) (args : List String) :
    String × String :=
  match world command args with
  | ExecResult.failure e =>
    if strContains e "executable file not found" || strContains e "command not found" then
      ("missing", "")
    else
      ("error", e)
  | ExecResult.success out => ("ok", out)

/-- `diagnostic` from `internal/utils/diagnostics.go`; `installCmd` is the
OS-name-to-install-command map in source order. -/
structure diagnostic where
  name : String
  command : String
  args : List String
  required : Bool
  description : String
  installCmd : List (String × String)
deriving DecidableEq

/-- The `diagnostics` registry from `internal/utils/diagnostics.go`. -/
def diagnostics : List diagnostic :=
  [ { name := "Go", command := "go", args := ["version"], required := true
    , description := "Go programming language (required for building NetLab)"
    , installCmd := [("darwin", "brew install go"), ("linux", "Visit https://golang.org/doc/install")] }
  , { name := "Docker", command := "docker", args := ["--version"], required := false
    , description := "Docker for containerized network experiments"
    , installCmd := [("darwin", "brew install --cask docker"), ("linux", "curl -fsSL https://get.docker.com | sh")] }
  , { name := "kubectl", command := "kubectl", args := ["version", "--client"], required := false
    , description := "Kubernetes CLI for cluster networking modules"
    , installCmd := [("darwin", "brew install kubectl"), ("linux", "curl -LO \"https://dl.k8s.io/release/$(curl -L -s https://dl.k8s.io/release/stable.txt)/bin/linux/amd64/kubectl\"")] }
  , { name := "kind", command := "kind", args := ["version"], required := false
    , description := "Kubernetes in Docker for local cluster setup"
    , installCmd := [("darwin", "brew install kind"), ("linux", "curl -Lo ./kind https://kind.sigs.k8s.io/dl/v0.20.0/kind-linux-amd64 && chmod +x ./kind && sudo mv ./kind /usr/local/bin/kind")] }
  , { name := "tcpdump", command := "tcpdump", args := ["--version"], required := false
    , description := "Network packet analyzer for traffic inspection"
    , installCmd := [("darwin", "brew install tcpdump"), ("linux", "sudo apt-get install tcpdump")] }
  , { name := "tshark", command := "tshark", args := ["--version"], required := false
    , description := "Wireshark command-line packet analyzer for OSI lab"
    , installCmd := [("darwin", "brew install wireshark"), ("linux", "sudo apt-get install tshark")] }
  , { name := "ip", command := "ip", args := ["--version"], required := false
    , description := "Network configuration tool (Linux)"
    , installCmd := [("linux", "sudo apt-get install iproute2")] }
  , { name := "iptables", command := "iptables", args := ["--version"], required := false
    , description := "Firewall administration tool (Linux)"
    , installCmd := [("linux", "sudo apt-get install iptables")] } ]

/-- `ModuleDependencies` from `internal/utils/diagnostics.go`: module id to
ordered required tool names (a Go map with unique keys, kept as an
association list). -/
def ModuleDependencies : List (String × List String) :=
  [ ("01-osi-model", ["Docker", "kubectl", "kind", "tcpdump", "tshark"])
  , ("02-tcp-ip", ["tcpdump", "tshark"])
  , ("03-subnetting", ["ip"])
  , ("04-routing", ["ip", "iptables"])
  , ("05-k8s-networking", ["Docker", "kubectl", "kind"])
  , ("06-cni", ["Docker", "kubectl", "kind"])
  , ("07-service-mesh", ["Docker", "kubectl", "kind"]) ]

/-- Go map lookup on an association list with unique keys. -/
def lookupTable (table : List (String × List String)) (key : String) :
    Option (List String) :=
  (table.find? (fun p => p.1 == key)).map (fun p => p.2)

/-- `DependencyStatus` from `internal/utils/diagnostics.go`. -/
structure DependencyStatus where
  Name : String
  Status : String
  Output : String
  Required : Bool
  InstallCmd : String
deriving DecidableEq

/-- One iteration of the loop in `CheckModuleDependencies`: look the tool up
in the registry (tools absent from the registry are skipped), probe it, attach
the install hint for the detected OS when missing, append the record and fold
its satisfaction into `allGood`. -/
def depStep (world : ExecWorld) (osName : String)
    (acc : List DependencyStatus × Bool) (depName : String) :
    List DependencyStatus × Bool :=
  match diagnostics.find? (fun d => d.name == depName) with
  | none => acc
  | some diag =>
    let r := checkCommand world diag.command diag.args
    let installCmd :=
      if r.1 == "missing" then
        match diag.installCmd.find? (fun p => p.1 == osName) with
        | some p => p.2
        | none => ""
      else ""
    (acc.1 ++ [{ Name := diag.name, Status := r.1, Output := r.2,
                 Required := true, InstallCmd := installCmd }],
     acc.2 && (r.1 == "ok"))

/-- `CheckModuleDependencies` from `internal/utils/diagnostics.go` (the spec's
`Probe`).  `world` runs the version-check commands and `osName` is the result
of the `getOS()` platform probe. -/
def CheckModuleDependencies (world : ExecWorld) (osName : String)
    (moduleID : String) : List DependencyStatus × Bool :=
  match lookupTable ModuleDependencies moduleID with
  | none => ([], true)
  | some requiredDeps => requiredDeps.foldl (depStep world osName) ([], true)

/-- The exact string `fmt.Sprintf` builds for an undersized terminal in
`Model.View`, `Model.mnemonicView`, `WalkthroughModel.View` and
`WalkthroughModel.labSetupView` (`modules/01-osi-model/module.go`). -/
def tooSmallText (w h : Nat) : String :=
  "⚠️  Terminal too small (" ++ toString w ++ "x" ++ toString h ++
    "), please resize to at least 60x20"

/-- What a screen's `View` renders, at the granularity the size-floor claims
need: either the literal "terminal too small" string, or one of the normal
content layouts (tagged by which branch of the `View` produced it — the full
lipgloss composition of the normal content is not modelled, only which
content is shown). -/
inductive RenderOutput where
  | tooSmallMessage (msg : String)
  | content (tag : String)
deriving DecidableEq

/-- The branch structure of `Model.View` (`modules/01-osi-model/module.go`):
size floor first, then the initializing placeholder, the mnemonic overlay or
the two-pane layer explorer. -/
def modelView (width height : Nat) (ready showMnemonic : Bool) : RenderOutput :=
  if width < 60 || height < 20 then
    RenderOutput.tooSmallMessage (tooSmallText width height)
  else if !ready then RenderOutput.content "initializing"
  else if showMnemonic then RenderOutput.content "mnemonic overlay"
  else RenderOutput.content "layer explorer"

/-- The branch structure of `WalkthroughModel.View`
(`modules/01-osi-model/module.go`): size floor first, then the initializing
placeholder, the lab-setup view or the packet walkthrough. -/
def walkthroughView (m : WalkthroughState) : RenderOutput :=
  if m.width < 60 || m.height < 20 then
    RenderOutput.tooSmallMessage (tooSmallText m.width m.height)
  else if !m.ready then RenderOutput.content "initializing"
  else if m.showLabSetup then RenderOutput.content "lab setup"
  else RenderOutput.content "packet walkthrough"

/-- The branch structure of `enhancedModel.View` (`internal/tui`, the menu
screen): a goodbye line when quitting, otherwise the welcome layout — laid
out with `max(width, 80)` and `max(height, 30)`, with no minimum-size check
of its own. -/
def enhancedModelView (width height : Nat) (quitting : Bool) : RenderOutput :=
  if quitting then RenderOutput.content "goodbye"
  else RenderOutput.content ("welcome " ++ toString (max width 80) ++ "x" ++
    toString (max height 30))

/-- The branch structure of `dependencyCheckModel.View`
(`internal/tui/dependency_check.go`): empty once done, the installation guide
overlay while showing the guide, otherwise the dependency summary — with no
minimum-size check. -/
def dependencyCheckView (done showingGuide : Bool) : RenderOutput :=
  if done then RenderOutput.content ""
  else if showingGuide then RenderOutput.content "installation guide"
  else RenderOutput.content "dependency summary"

/-! ## Concrete inputs used by the witnesses and counterexamples -/

/-- A concrete walkthrough state for the C2 witness: a streaming setup run
whose progress estimate stands at 5. -/
def progressWitnessState : WalkthroughState :=
  { layers := [], currentIdx := 0, ready := true, width := 80, height := 24,
    labReady := false, labRunning := true, labError := "", labProgress := 5,
    labOutput := [], showLabSetup := true }

/-- A concrete command runner for the C7 witness: `kind` cannot be located,
everything else succeeds. -/
def probeWitnessWorld : ExecWorld := fun command _ =>
  if command == "kind" then
    ExecResult.failure "exec: \"kind\": executable file not found in $PATH"
  else ExecResult.success "v1.0.0\n"

/-- A concrete setup run for C1: the entry point exists, the child produced
two non-empty output lines and exited 0, the capture artifact exists. -/
def c1World : LabRunWorld :=
  { scriptExists := true, output := "line1\nline2", exitErr := none, pcapExists := true }

/-- A command runner whose probe succeeds with a trailing newline in the
captured stdout (as `go version`, `docker --version` and the like produce). -/
def okWorld : ExecWorld := fun _ _ =>
  ExecResult.success "go version go1.21.0 darwin/arm64\n"

/-- A command runner whose probe fails with Go's executable-not-located spawn
error. -/
def missingWorld : ExecWorld := fun _ _ =>
  ExecResult.failure "exec: \"kind\": executable file not found in $PATH"

/-- A command runner whose probe fails with a non-zero exit status. -/
def errorWorld : ExecWorld := fun _ _ =>
  ExecResult.failure "exit status 1"

/-! ## Helper lemmas -/

/-- One streamed line never decreases the progress estimate. -/
lemma labLineStep_labProgress_le (s : WalkthroughState) (line : String) :
    s.labProgress ≤ (labLineStep s line).labProgress := by
  unfold labLineStep
  split
  · dsimp only
    split <;> omega
  · exact Nat.le_refl _

/-- A whole streamed batch never decreases the progress estimate. -/
lemma foldl_labLineStep_labProgress_le (l : List String) (s : WalkthroughState) :
    s.labProgress ≤ (l.foldl labLineStep s).labProgress := by
  induction l generalizing s with
  | nil => exact Nat.le_refl _
  | cons a t ih =>
    rw [List.foldl_cons]
    exact Nat.le_trans (labLineStep_labProgress_le s a) (ih _)

/-- The failure-branch log fold touches only the output log: `labRunning` is
preserved. -/
lemma foldl_labFailLineStep_labRunning (l : List String) (s : WalkthroughState) :
    (l.foldl labFailLineStep s).labRunning = s.labRunning := by
  induction l generalizing s with
  | nil => rfl
  | cons a t ih =>
    rw [List.foldl_cons, ih]
    unfold labFailLineStep
    split <;> rfl

/-- The failure-branch log fold touches only the output log: `labError` is
preserved. -/
lemma foldl_labFailLineStep_labError (l : List String) (s : WalkthroughState) :
    (l.foldl labFailLineStep s).labError = s.labError := by
  induction l generalizing s with
  | nil => rfl
  | cons a t ih =>
    rw [List.foldl_cons, ih]
    unfold labFailLineStep
    split <;> rfl

/-- `LoadPacketData` returns the sample data with no error on every file
system. -/
lemma loadPacketData_eq (p : Bool) :
    LoadPacketData p = Except.ok getSamplePacketLayers := by
  cases p <;> rfl

/-- Consuming a terminal failure event clears `labRunning` and records the
event's error. -/
lemma updateLabOutput_fail_fields (pcap : Bool) (m : WalkthroughState)
    (msg : LabOutputEvent) (hf : msg.finished = true) (hs : msg.success = false) :
    (updateLabOutput pcap m msg).labRunning = false ∧
    (updateLabOutput pcap m msg).labError = msg.errMsg := by
  unfold updateLabOutput
  rw [hf, hs]
  simp [foldl_labFailLineStep_labRunning, foldl_labFailLineStep_labError]

/-- Consuming a terminal success event clears `labRunning` and the error and
marks the lab ready. -/
lemma updateLabOutput_success_fields (pcap : Bool) (m : WalkthroughState)
    (msg : LabOutputEvent) (hf : msg.finished = true) (hs : msg.success = true) :
    (updateLabOutput pcap m msg).labRunning = false ∧
    (updateLabOutput pcap m msg).labError = "" ∧
    (updateLabOutput pcap m msg).labReady = true := by
  unfold updateLabOutput
  rw [hf, hs, loadPacketData_eq]
  simp

/-- A state with no running process and a recorded error is in phase Failed. -/
lemma runPhase_eq_failed (m : WalkthroughState) (h1 : m.labRunning = false)
    (h2 : m.labError ≠ "") : runPhase m = Phase.failed := by
  unfold runPhase
  rw [h1]
  simp [h2]

/-- A state with no running process, no error and a ready lab is in phase
Succeeded. -/
lemma runPhase_eq_succeeded (m : WalkthroughState) (h1 : m.labRunning = false)
    (h2 : m.labError = "") (h3 : m.labReady = true) : runPhase m = Phase.succeeded := by
  unfold runPhase
  rw [h1, h2, h3]
  simp

/-! ## The claims -/

/-- C10: `LoadPacketData` is total and never returns an error — whether or not
the packet-capture file exists it returns the same fixed five-element sample
packet-layer list (layers 1, 2, 3, 4 and 7), so the content displayed after a
successful run's re-load does not depend on the captured data. -/
theorem load_packet_data_total (pcapExists : Bool) :
    LoadPacketData pcapExists = Except.ok getSamplePacketLayers ∧
    getSamplePacketLayers.length = 5 ∧
    getSamplePacketLayers.map PacketLayer.OSILayer = [1, 2, 3, 4, 7] :=
  ⟨loadPacketData_eq pcapExists, rfl, rfl⟩

/-- C6: for a setup-mode run that exits with status 0, success is reported iff
the packet-capture artifact exists at its fixed relative path after the exit —
the exit code alone does not decide it.  (A child process is spawned on this
path.) -/
theorem setup_success_iff_artifact (output : String) (pcapExists : Bool) :
    (streamLabOutput ⟨true, output, none, pcapExists⟩).1.success = pcapExists ∧
    ((streamLabOutput ⟨true, output, none, pcapExists⟩).1.success = true ↔
      pcapExists = true) ∧
    (streamLabOutput ⟨true, output, none, pcapExists⟩).2 = true := by
  refine ⟨rfl, ?_, rfl⟩
  exact Iff.rfl

/-- C5: a cleanup-mode run with a non-zero exit code and arbitrary captured
output still yields phase Succeeded, the captured output reported as warnings,
and no error recorded. -/
theorem cleanup_soft_failure (output e : String) (pcapw pcap : Bool)
    (m : WalkthroughState) :
    (streamLabCleanup ⟨true, output, some e, pcapw⟩).1.success = true ∧
    (streamLabCleanup ⟨true, output, some e, pcapw⟩).1.errMsg = "" ∧
    (streamLabCleanup ⟨true, output, some e, pcapw⟩).1.output =
      "⚠️ Cleanup completed with warnings:\n\n" ++ output ∧
    runPhase (updateLabOutput pcap m (streamLabCleanup ⟨true, output, some e, pcapw⟩).1) =
      Phase.succeeded := by
  refine ⟨rfl, rfl, rfl, ?_⟩
  obtain ⟨h1, h2, h3⟩ := updateLabOutput_success_fields pcap m
    (streamLabCleanup ⟨true, output, some e, pcapw⟩).1 rfl rfl
  exact runPhase_eq_succeeded _ h1 h2 h3

/-- C4: a launch attempt whose entry-point script does not exist emits exactly
one OutputEvent, terminal, unsuccessful, carrying the "not found"
(MissingEntryPoint) error; no child process is spawned; after the UI consumes
the event the run's phase is Failed. -/
theorem missing_entry_point_run (output : String) (exitErr : Option String)
    (pcapw pcap : Bool) (m : WalkthroughState) :
    (setupRunEvents ⟨false, output, exitErr, pcapw⟩).length = 1 ∧
    (streamLabOutput ⟨false, output, exitErr, pcapw⟩).1.finished = true ∧
    (streamLabOutput ⟨false, output, exitErr, pcapw⟩).1.success = false ∧
    (streamLabOutput ⟨false, output, exitErr, pcapw⟩).1.errMsg =
      "📁 Lab script not found in expected location" ∧
    strContains (streamLabOutput ⟨false, output, exitErr, pcapw⟩).1.errMsg
      "not found" = true ∧
    (streamLabOutput ⟨false, output, exitErr, pcapw⟩).2 = false ∧
    runPhase (updateLabOutput pcap m (streamLabOutput ⟨false, output, exitErr, pcapw⟩).1) =
      Phase.failed := by
  refine ⟨rfl, rfl, rfl, rfl, ?_, rfl, ?_⟩
  · exact (by decide :
      strContains "📁 Lab script not found in expected location" "not found" = true)
  · obtain ⟨h1, h2⟩ := updateLabOutput_fail_fields pcap m
      (streamLabOutput ⟨false, output, exitErr, pcapw⟩).1 rfl rfl
    refine runPhase_eq_failed _ h1 ?_
    have hmsg : (streamLabOutput ⟨false, output, exitErr, pcapw⟩).1.errMsg =
        "📁 Lab script not found in expected location" := rfl
    rw [h2, hmsg]
    decide

/-- C2: across a streamed run the progress value is non-decreasing at every
prefix of the line sequence; a line matching no table entry (estimate 0)
leaves it unchanged, and a new estimate replaces the current value exactly
when strictly greater. -/
theorem lab_progress_monotone (m : WalkthroughState) (l1 l2 : List String)
    (hpre : l1 <+: l2) (line line2 : String)
    (hno : parseProgressFromOutput line = 0)
    (hgt : parseProgressFromOutput line2 > m.labProgress)
    (hne : (goTrimSpace line2 != "") = true) :
    (l1.foldl labLineStep m).labProgress ≤ (l2.foldl labLineStep m).labProgress ∧
    (labLineStep m line).labProgress = m.labProgress ∧
    (labLineStep m line2).labProgress = parseProgressFromOutput line2 := by
  obtain ⟨t, rfl⟩ := hpre
  refine ⟨?_, ?_, ?_⟩
  · rw [List.foldl_append]
    exact foldl_labLineStep_labProgress_le t _
  · unfold labLineStep
    split
    · dsimp only
      rw [hno, if_neg (by omega)]
    · rfl
  · unfold labLineStep
    rw [if_pos hne]
    dsimp only
    rw [if_pos hgt]

/-- Witness for C2 at concrete inputs: the one-line prefix of a two-line
stream, a line matching no table entry and a line whose estimate 15 exceeds
the current 5. -/
theorem lab_progress_monotone_witness :
    parseProgressFromOutput "fetching images" = 0 ∧
    parseProgressFromOutput "creating kind cluster" > progressWitnessState.labProgress ∧
    (goTrimSpace "creating kind cluster" != "") = true ∧
    ((["deploying nginx"].foldl labLineStep progressWitnessState).labProgress ≤
      ((["deploying nginx"] ++ ["starting packet capture"]).foldl labLineStep
        progressWitnessState).labProgress ∧
     (labLineStep progressWitnessState "fetching images").labProgress =
       progressWitnessState.labProgress ∧
     (labLineStep progressWitnessState "creating kind cluster").labProgress =
       parseProgressFromOutput "creating kind cluster") :=
  ⟨by decide, by decide, by decide,
   lab_progress_monotone progressWitnessState ["deploying nginx"]
     (["deploying nginx"] ++ ["starting packet capture"])
     ⟨["starting packet capture"], rfl⟩
     "fetching images" "creating kind cluster" (by decide) (by decide) (by decide)⟩

/-- C3: while a run is Streaming (`labRunning` set), the start-run key `"r"`
and the start-cleanup key `"c"` are no-ops — the state is returned unchanged
(in particular phase, progress, output log and error) and the returned
command launches nothing (`.pass`: no `runLabSetup`/`runLabCleanup`, so no
second child process is spawned). -/
theorem streaming_launch_noop (m : WalkthroughState) (h : m.labRunning = true) :
    updateKey m "r" = (m, LabCmd.pass) ∧ updateKey m "c" = (m, LabCmd.pass) := by
  unfold updateKey
  rw [h]
  simp

/-- Witness for C3: a concrete streaming state on which both launch keys are
no-ops. -/
theorem streaming_launch_noop_witness :
    progressWitnessState.labRunning = true ∧
    updateKey progressWitnessState "r" = (progressWitnessState, LabCmd.pass) ∧
    updateKey progressWitnessState "c" = (progressWitnessState, LabCmd.pass) :=
  ⟨rfl, (streaming_launch_noop progressWitnessState rfl).1,
   (streaming_launch_noop progressWitnessState rfl).2⟩

/-- The fold of `CheckModuleDependencies` keeps `allGood` equal to "every
record produced so far has status ok". -/
lemma foldl_depStep_allGood (world : ExecWorld) (osName : String)
    (deps : List String) (l : List DependencyStatus) (b : Bool)
    (hb : b = l.all (fun r => r.Status == "ok")) :
    (deps.foldl (depStep world osName) (l, b)).2 =
      (deps.foldl (depStep world osName) (l, b)).1.all (fun r => r.Status == "ok") := by
  induction deps generalizing l b with
  | nil => simpa using hb
  | cons d t ih =>
    rw [List.foldl_cons]
    unfold depStep
    cases hfind : diagnostics.find? (fun dg => dg.name == d) with
    | none => exact ih l b hb
    | some diag =>
      apply ih
      simp [List.all_append, hb, Bool.and_assoc]

/-- C7: a module identifier with no declared requirement entry probes to an
empty status list with `allSatisfied = true`; and for any module,
`allSatisfied` is true iff every produced tool status is Satisfied (`"ok"`). -/
theorem probe_empty_and_allSatisfied (world : ExecWorld) (osName : String)
    (midNone moduleID : String)
    (hnone : lookupTable ModuleDependencies midNone = none) :
    CheckModuleDependencies world osName midNone = ([], true) ∧
    (CheckModuleDependencies world osName moduleID).2 =
      (CheckModuleDependencies world osName moduleID).1.all
        (fun r => r.Status == "ok") := by
  constructor
  · unfold CheckModuleDependencies
    rw [hnone]
  · unfold CheckModuleDependencies
    cases h : lookupTable ModuleDependencies moduleID with
    | none => rfl
    | some deps => exact foldl_depStep_allGood world osName deps [] true rfl

/-- Witness for C7: the module table has no entry for "00-intro", and for the
OSI module (with `kind` missing) `allSatisfied` equals "all produced statuses
are ok". -/
theorem probe_empty_and_allSatisfied_witness :
    lookupTable ModuleDependencies "00-intro" = none ∧
    CheckModuleDependencies probeWitnessWorld "linux" "00-intro" = ([], true) ∧
    (CheckModuleDependencies probeWitnessWorld "linux" "01-osi-model").2 =
      (CheckModuleDependencies probeWitnessWorld "linux" "01-osi-model").1.all
        (fun r => r.Status == "ok") :=
  ⟨by decide,
   (probe_empty_and_allSatisfied probeWitnessWorld "linux" "00-intro" "01-osi-model"
     (by decide)).1,
   (probe_empty_and_allSatisfied probeWitnessWorld "linux" "00-intro" "01-osi-model"
     (by decide)).2⟩

/-- C1 counterexample: the claim predicts one OutputEvent per non-empty output
line plus a terminal event (three events for `c1World`); the orchestrator
delivers a single event, so the claimed count is false at this input. -/
theorem claim_c1_counterexample :
    ¬ ((setupRunEvents c1World).length = (nonEmptyLines c1World.output).length + 1) := by
  decide

/-- C1 (amended): for every run whose entry point exists the orchestrator
blocks on `cmd.CombinedOutput()` and delivers exactly one OutputEvent — a
terminal one, which carries the full captured output when the process exits 0;
being the only event, it is trivially the last one delivered for the run. -/
theorem setup_run_single_terminal_event (w : LabRunWorld)
    (hs : w.scriptExists = true) :
    (setupRunEvents w).length = 1 ∧
    (setupRunEvents w).getLast? = some (streamLabOutput w).1 ∧
    (streamLabOutput w).1.finished = true ∧
    (w.exitErr = none → (streamLabOutput w).1.output = w.output) := by
  obtain ⟨se, out, ee, pe⟩ := w
  subst hs
  cases ee with
  | none => exact ⟨rfl, rfl, rfl, fun _ => rfl⟩
  | some e => exact ⟨rfl, rfl, rfl, fun hc => by cases hc⟩

/-- Witness for C1 (amended) at `c1World`. -/
theorem setup_run_single_terminal_event_witness :
    c1World.scriptExists = true ∧
    (setupRunEvents c1World).length = 1 ∧
    (streamLabOutput c1World).1.finished = true ∧
    (streamLabOutput c1World).1.output = c1World.output :=
  ⟨rfl, (setup_run_single_terminal_event c1World rfl).1,
   (setup_run_single_terminal_event c1World rfl).2.2.1,
   (setup_run_single_terminal_event c1World rfl).2.2.2 rfl⟩

/-- C8 counterexample: at 40×10 the menu screen (`enhancedModel.View`) renders
its normal welcome content, not the "terminal too small" message — it has no
minimum-size check at all. -/
theorem claim_c8_counterexample :
    enhancedModelView 40 10 false ≠
      RenderOutput.tooSmallMessage (tooSmallText 40 10) := by
  decide

/-- C8 (amended): the OSI module's screens (layer explorer and packet
walkthrough, including their overlays) render exactly the single "terminal
too small" message whenever the terminal is below the 60×20 floor
(e.g. at 40×10), regardless of prior state; the menu screen and the
dependency gate have no size floor and never render that message. -/
theorem size_floor_osi_screens (w h w2 h2 : Nat) (hsmall : w < 60 ∨ h < 20)
    (ready showMnemonic quitting done showingGuide : Bool)
    (m : WalkthroughState) (hw : m.width = w) (hh : m.height = h)
    (msg : String) :
    modelView w h ready showMnemonic =
      RenderOutput.tooSmallMessage (tooSmallText w h) ∧
    walkthroughView m = RenderOutput.tooSmallMessage (tooSmallText w h) ∧
    enhancedModelView w2 h2 quitting ≠ RenderOutput.tooSmallMessage msg ∧
    dependencyCheckView done showingGuide ≠ RenderOutput.tooSmallMessage msg := by
  have hcond : (decide (w < 60) || decide (h < 20)) = true := by
    rcases hsmall with h' | h' <;> simp [h']
  refine ⟨?_, ?_, ?_, ?_⟩
  · unfold modelView
    rw [hcond]
    rfl
  · unfold walkthroughView
    rw [hw, hh, hcond]
    rfl
  · unfold enhancedModelView
    split <;> simp
  · unfold dependencyCheckView
    split
    · simp
    · split <;> simp

/-- Witness for C8 (amended) at a 40×10 terminal. -/
theorem size_floor_osi_screens_witness :
    (40 < 60 ∨ 10 < 20) ∧
    (modelView 40 10 true false =
       RenderOutput.tooSmallMessage (tooSmallText 40 10) ∧
     walkthroughView { progressWitnessState with width := 40, height := 10 } =
       RenderOutput.tooSmallMessage (tooSmallText 40 10) ∧
     enhancedModelView 40 10 false ≠
       RenderOutput.tooSmallMessage (tooSmallText 40 10) ∧
     dependencyCheckView false false ≠
       RenderOutput.tooSmallMessage (tooSmallText 40 10)) :=
  ⟨Or.inl (by decide),
   size_floor_osi_screens 40 10 40 10 (Or.inl (by decide)) true false false false false
     { progressWitnessState with width := 40, height := 10 } rfl rfl
     (tooSmallText 40 10)⟩

/-- C9 counterexample: on a successful probe `checkCommand` stores the
captured stdout verbatim — with its trailing newline — not trimmed of
surrounding whitespace as the claim states. -/
theorem claim_c9_counterexample :
    (checkCommand okWorld "go" ["version"]).1 = "ok" ∧
    (checkCommand okWorld "go" ["version"]).2 ≠
      goTrimSpace "go version go1.21.0 darwin/arm64\n" := by
  exact ⟨rfl, by decide⟩

/-- C9 (amended): a probe whose version-check command succeeds yields status
Satisfied (`"ok"`) with rawOutput equal to the captured stdout verbatim (the
trimming happens only when the doctor report prints it); an invocation
failure whose error carries the executable-not-located signature yields
Missing; any other invocation failure yields ProbeError (`"error"`) with the
error text. -/
theorem check_command_outcomes (w1 w2 w3 : ExecWorld) (command : String)
    (args : List String) (stdout e1 e2 : String)
    (h1 : w1 command args = ExecResult.success stdout)
    (h2 : w2 command args = ExecResult.failure e1)
    (hsig : strContains e1 "executable file not found" = true)
    (h3 : w3 command args = ExecResult.failure e2)
    (hns1 : strContains e2 "executable file not found" = false)
    (hns2 : strContains e2 "command not found" = false) :
    checkCommand w1 command args = ("ok", stdout) ∧
    checkCommand w2 command args = ("missing", "") ∧
    checkCommand w3 command args = ("error", e2) := by
  unfold checkCommand
  rw [h1, h2, h3]
  simp [hsig, hns1, hns2]

/-- Witness for C9 (amended) on the three concrete runners. -/
theorem check_command_outcomes_witness :
    okWorld "go" ["version"] = ExecResult.success "go version go1.21.0 darwin/arm64\n" ∧
    missingWorld "kind" ["version"] =
      ExecResult.failure "exec: \"kind\": executable file not found in $PATH" ∧
    errorWorld "tshark" ["--version"] = ExecResult.failure "exit status 1" ∧
    (checkCommand okWorld "go" ["version"] =
       ("ok", "go version go1.21.0 darwin/arm64\n") ∧
     checkCommand missingWorld "kind" ["version"] = ("missing", "") ∧
     checkCommand errorWorld "tshark" ["--version"] = ("error", "exit status 1")) :=
  ⟨rfl, rfl, rfl,
   check_command_outcomes okWorld missingWorld errorWorld "x" []
     "go version go1.21.0 darwin/arm64\n"
     "exec: \"kind\": executable file not found in $PATH" "exit status 1"
     rfl rfl (by decide) rfl (by decide) (by decide)⟩

end NetLab
